import Mathlib

/-!
Shallow embedding of `src/Solar_As_Produced_Calculator.py` (the "Solar As
Produced Calculator" Streamlit script).  Numeric columns are modelled with `ℚ`;
a pandas `NaN` cell (produced by the left join for an unmatched hour) is
modelled as `none : Option ℚ`, and pandas' NaN-skipping column sums are
modelled by summing the `some` entries.  A float division by zero, which in
pandas yields a non-finite value (`inf`/`NaN`) rather than raising, is
modelled by `Option ℚ` with `none` for the non-finite case.
-/

namespace Solar

/-- A calendar date (proleptic Gregorian), as carried by the `datetime`
column after `pd.to_datetime`.  Time-of-day is irrelevant to the core:
`get_supply_period` only reads `date.day`, `.month`, `.year`. -/
structure Date where
  year : Nat
  month : Nat
  day : Nat
  deriving DecidableEq, Repr

/-- Gregorian leap-year rule. -/
def isLeap (y : Nat) : Bool :=
  y % 4 = 0 && (y % 100 ≠ 0 || y % 400 = 0)

/-- Number of days of month `m` of year `y` (for `m ∈ 1..12`). -/
def daysInMonth (y m : Nat) : Nat :=
  if m = 2 then (if isLeap y then 29 else 28)
  else if m = 4 ∨ m = 6 ∨ m = 9 ∨ m = 11 then 30
  else 31

/-- A valid calendar date: Python's `datetime.date` requires `year ≥ 1`,
`1 ≤ month ≤ 12` and `1 ≤ day ≤` the month's length. -/
def validDate (d : Date) : Prop :=
  1 ≤ d.year ∧ 1 ≤ d.month ∧ d.month ≤ 12 ∧ 1 ≤ d.day ∧
    d.day ≤ daysInMonth d.year d.month

instance : DecidablePred validDate := fun d => by
  unfold validDate; infer_instance

/-- `date.replace(day=k)`: fails (Python `ValueError`) when `k` is not a
valid day of the date's month. -/
def replaceDay (d : Date) (k : Nat) : Option Date :=
  if 1 ≤ k ∧ k ≤ daysInMonth d.year d.month then some ⟨d.year, d.month, k⟩
  else none

/-- `d + pd.DateOffset(months=1)`: move to the next month, clamping the day
to that month's length. -/
def addMonthClamp (d : Date) : Date :=
  if d.month = 12 then ⟨d.year + 1, 1, min d.day (daysInMonth (d.year + 1) 1)⟩
  else ⟨d.year, d.month + 1, min d.day (daysInMonth d.year (d.month + 1))⟩

/-- `d - pd.DateOffset(months=1)`: move to the previous month, clamping the
day to that month's length. -/
def subMonthClamp (d : Date) : Date :=
  if d.month = 1 then ⟨d.year - 1, 12, min d.day (daysInMonth (d.year - 1) 12)⟩
  else ⟨d.year, d.month - 1, min d.day (daysInMonth d.year (d.month - 1))⟩

/-- The twelve `strftime` month abbreviations, `%b`. -/
def monthAbbrev (m : Nat) : String :=
  ["Jan", "Feb", "Mar", "Apr", "May", "Jun",
   "Jul", "Aug", "Sep", "Oct", "Nov", "Dec"].getD (m - 1) ""

/-- Two-digit zero-padded rendering of `n % 100`, `strftime`'s `%y`. -/
def pad2 (n : Nat) : String :=
  ⟨[Nat.digitChar (n / 10 % 10), Nat.digitChar (n % 10)]⟩

/-- The label `strftime('%b-%y')` builds from a month number and a two-digit
year. -/
def mkLabel (m yy : Nat) : String :=
  monthAbbrev m ++ "-" ++ pad2 yy

/-- `period_end.strftime('%b-%y')`. -/
def fmtLabel (d : Date) : String :=
  mkLabel d.month (d.year % 100)

/-- `get_supply_period` from the script: for `day ≥ 26` the period runs to
day 25 of the next month, otherwise to day 25 of the current month; returns
the `%b-%y` label of the end date together with the end date.  `none` models
a raised exception from `replace`. -/
def get_supply_period (d : Date) : Option (String × Date) :=
  if 26 ≤ d.day then
    (replaceDay d 26).bind fun ps =>
      (replaceDay (addMonthClamp ps) 25).map fun pe => (fmtLabel pe, pe)
  else
    (replaceDay d 25).bind fun pe =>
      (replaceDay (subMonthClamp pe) 26).map fun _ps => (fmtLabel pe, pe)

/-- Year/month of the month after `(y, m)`. -/
def nextYM (y m : Nat) : Nat × Nat :=
  if m = 12 then (y + 1, 1) else (y, m + 1)

/-- Year/month of the month before `(y, m)`. -/
def prevYM (y m : Nat) : Nat × Nat :=
  if m = 1 then (y - 1, 12) else (y, m - 1)

/-- The supply-period end date `get_supply_period` computes, in the closed
form used by the specification: day 25 of the following month when
`day ≥ 26`, day 25 of the current month otherwise. -/
def endOf (d : Date) : Date :=
  if 26 ≤ d.day then
    ⟨(nextYM d.year d.month).1, (nextYM d.year d.month).2, 25⟩
  else ⟨d.year, d.month, 25⟩

theorem daysInMonth_ge_28 (y m : Nat) : 28 ≤ daysInMonth y m := by
  unfold daysInMonth
  split
  · split <;> omega
  · split <;> omega

theorem nextYM_month_bounds (y m : Nat) (h1 : 1 ≤ m) (h12 : m ≤ 12) :
    1 ≤ (nextYM y m).2 ∧ (nextYM y m).2 ≤ 12 := by
  unfold nextYM; split <;> constructor <;> omega

theorem prevYM_month_bounds (y m : Nat) (h1 : 1 ≤ m) (h12 : m ≤ 12) :
    1 ≤ (prevYM y m).2 ∧ (prevYM y m).2 ≤ 12 := by
  unfold prevYM; split <;> constructor <;> omega

theorem replaceDay_of_le (y m day k : Nat) (h1 : 1 ≤ k) (h2 : k ≤ 28) :
    replaceDay ⟨y, m, day⟩ k = some ⟨y, m, k⟩ := by
  unfold replaceDay
  have := daysInMonth_ge_28 y m
  rw [if_pos ⟨h1, by simpa using by omega⟩]

theorem addMonthClamp_26 (y m : Nat) :
    addMonthClamp ⟨y, m, 26⟩ = ⟨(nextYM y m).1, (nextYM y m).2, 26⟩ := by
  unfold addMonthClamp nextYM
  dsimp only
  by_cases h : m = 12
  · have := daysInMonth_ge_28 (y + 1) 1
    simp only [h, if_pos]
    congr 1
  · have := daysInMonth_ge_28 y (m + 1)
    rw [if_neg h, if_neg h]
    congr 1
    all_goals omega

theorem subMonthClamp_25 (y m : Nat) :
    subMonthClamp ⟨y, m, 25⟩ = ⟨(prevYM y m).1, (prevYM y m).2, 25⟩ := by
  unfold subMonthClamp prevYM
  dsimp only
  by_cases h : m = 1
  · have := daysInMonth_ge_28 (y - 1) 12
    simp only [h, if_pos]
    congr 1
  · have := daysInMonth_ge_28 y (m - 1)
    rw [if_neg h, if_neg h]
    congr 1
    all_goals omega

/-- On every valid date the resolver succeeds and returns
`(fmtLabel (endOf d), endOf d)`. -/
theorem get_supply_period_eq (d : Date) (hd : validDate d) :
    get_supply_period d = some (fmtLabel (endOf d), endOf d) := by
  obtain ⟨hy, hm1, hm12, hd1, hdm⟩ := hd
  obtain ⟨y, m, day⟩ := d
  simp only at hy hm1 hm12 hd1 hdm
  unfold get_supply_period
  by_cases h26 : 26 ≤ (Date.mk y m day).day
  · rw [if_pos h26]
    have e1 : replaceDay ⟨y, m, day⟩ 26 = some ⟨y, m, 26⟩ := by
      unfold replaceDay
      have := daysInMonth_ge_28 y m
      rw [if_pos ⟨by omega, by simpa using by omega⟩]
    rw [e1, Option.some_bind, addMonthClamp_26,
      replaceDay_of_le _ _ _ 25 (by omega) (by omega), Option.map_some']
    have he : endOf ⟨y, m, day⟩ = ⟨(nextYM y m).1, (nextYM y m).2, 25⟩ := by
      unfold endOf
      rw [if_pos h26]
    rw [he]
  · rw [if_neg h26]
    have e1 : replaceDay ⟨y, m, day⟩ 25 = some ⟨y, m, 25⟩ := by
      unfold replaceDay
      have := daysInMonth_ge_28 y m
      rw [if_pos ⟨by omega, by simpa using by omega⟩]
    rw [e1, Option.some_bind, subMonthClamp_25,
      replaceDay_of_le _ _ _ 26 (by omega) (by omega), Option.map_some']
    have he : endOf ⟨y, m, day⟩ = ⟨y, m, 25⟩ := by
      unfold endOf
      rw [if_neg h26]
    rw [he]

theorem endOf_day (d : Date) : (endOf d).day = 25 := by
  unfold endOf; split <;> rfl

theorem endOf_valid (d : Date) (hd : validDate d) : validDate (endOf d) := by
  obtain ⟨hy, hm1, hm12, hd1, hdm⟩ := hd
  unfold endOf validDate
  by_cases h26 : 26 ≤ d.day
  · rw [if_pos h26]
    have hb := nextYM_month_bounds d.year d.month hm1 hm12
    have hdm28 := daysInMonth_ge_28 (nextYM d.year d.month).1 (nextYM d.year d.month).2
    have hy1 : d.year ≤ (nextYM d.year d.month).1 := by
      unfold nextYM; split <;> omega
    simp only
    omega
  · rw [if_neg h26]
    have := daysInMonth_ge_28 d.year d.month
    simp only
    omega

theorem endOf_year (d : Date) :
    (endOf d).year = d.year ∨ (endOf d).year = d.year + 1 := by
  unfold endOf nextYM
  split
  · split <;> simp
  · simp

theorem endOf_month_bounds (d : Date) (hd : validDate d) :
    1 ≤ (endOf d).month ∧ (endOf d).month ≤ 12 := by
  obtain ⟨hy, hm1, hm12, hd1, hdm⟩ := hd
  unfold endOf
  split
  · exact nextYM_month_bounds d.year d.month hm1 hm12
  · exact ⟨hm1, hm12⟩

/-- The month number encoded by three characters under `%b`, or `none`. -/
def month3 (a b c : Char) : Option Nat :=
  ((List.range 12).find? fun i => (monthAbbrev (i + 1)).data == [a, b, c]).map (· + 1)

/-- A decimal digit character's value, or `none`. -/
def digitVal (c : Char) : Option Nat :=
  if c.isDigit then some (c.toNat - 48) else none

/-- The POSIX `%y` two-digit-year pivot used by `strptime`: `00–68` map to
`2000–2068`, `69–99` map to `1969–1999`. -/
def pivotYear (yy : Nat) : Nat :=
  if yy ≤ 68 then 2000 + yy else 1900 + yy

/-- `pd.to_datetime(s, format='%b-%y')` on the calculator's canonical
period labels: three-letter month abbreviation, a dash, and a two-digit
year run through the POSIX pivot; the parsed timestamp falls on day 1 of
the labelled month. -/
def parseLabel (s : String) : Option Date :=
  match s.data with
  | [a, b, c, dash, t, o] =>
    if dash = '-' then
      match month3 a b c, digitVal t, digitVal o with
      | some m, some hi, some lo => some ⟨pivotYear (10 * hi + lo), m, 1⟩
      | _, _, _ => none
    else none
  | _ => none

/-- Numeric key with the same ordering as a date (for valid fields):
`year * 10000 + month * 100 + day`. -/
def dateKey (d : Date) : Nat :=
  d.year * 10000 + d.month * 100 + d.day

/-- The sort key the script uses for the summary table: the parsed
`Supply Period` label (`0` for an unparseable label, which never occurs on
the labels the resolver emits). -/
def sortKey (s : String) : Nat :=
  ((parseLabel s).map dateKey).getD 0

/-- Parsing a canonical label recovers month and pivoted year. -/
theorem parseLabel_mkLabel :
    ∀ m < 12, ∀ yy < 100,
      parseLabel (mkLabel (m + 1) yy) = some ⟨pivotYear yy, m + 1, 1⟩ := by
  decide

/-- One row of the load-profile input, restricted to the columns the core
reads: `datetime`, `hour`, `wesm` (spot price), `kWh` (energy). -/
structure Row where
  dt : Date
  hour : Nat
  wesm : ℚ
  kWh : ℚ
  deriving DecidableEq, Repr

/-- The guarantee table: `(Hour, Solar Guarantee (%))` pairs. -/
abbrev Curve := List (Nat × ℚ)

/-- The default solar-guarantee table hard-coded in the script. -/
def default_solar_guarantee : Curve :=
  [(1, 0), (2, 0), (3, 0), (4, 0), (5, 0), (6, 0), (7, 0), (8, 29),
   (9, 57), (10, 79), (11, 93), (12, 100), (13, 100), (14, 93), (15, 79),
   (16, 57), (17, 21), (18, 0), (19, 0), (20, 0), (21, 0), (22, 0),
   (23, 0), (24, 0)]

/-- The left join `df.merge(edited_df, left_on='hour', right_on='Hour',
how='left')`: the guarantee percent matched to an hour, or `none` (pandas
`NaN`) when the curve has no entry for it. -/
def lookupGuarantee (curve : Curve) (h : Nat) : Option ℚ :=
  (curve.find? fun p => p.1 == h).map Prod.snd

/-- One row of the detailed-charges table.  The five derived columns are
`Option ℚ`: `none` models the `NaN` a left-join miss propagates through the
arithmetic of Step 4. -/
structure ChargedRow where
  dt : Date
  hour : Nat
  wesm : ℚ
  kWh : ℚ
  solarCons : Option ℚ
  nonSolarCons : Option ℚ
  solarCharge : Option ℚ
  nonSolarCharge : Option ℚ
  totalCharge : Option ℚ
  period : String
  periodEnd : Date
  deriving DecidableEq, Repr

/-- Steps 4 and 5 of the script for a single row, with the successive
column definitions substituted in (`Non Solar = kWh - Solar`,
`Total = Solar Charge + Non Solar Charge`, …): all five derived columns
carry the matched guarantee percent, and all five are `none` exactly when
the left join missed (`NaN` propagation).  The outer `Option` models a
raised exception (an invalid `datetime`). -/
def chargeOne (curve : Curve) (sr lr af : ℚ) (r : Row) : Option ChargedRow :=
  (get_supply_period r.dt).map fun le =>
    ⟨r.dt, r.hour, r.wesm, r.kWh,
     (lookupGuarantee curve r.hour).map fun g => r.kWh * g / 100,
     (lookupGuarantee curve r.hour).map fun g => r.kWh - r.kWh * g / 100,
     (lookupGuarantee curve r.hour).map fun g => r.kWh * g / 100 * (sr + lr),
     (lookupGuarantee curve r.hour).map fun g =>
       (r.kWh - r.kWh * g / 100) * (r.wesm + af),
     (lookupGuarantee curve r.hour).map fun g =>
       r.kWh * g / 100 * (sr + lr) + (r.kWh - r.kWh * g / 100) * (r.wesm + af),
     le.1, le.2⟩

/-- The whole charge pass: every row of the data frame gets its derived
columns; the pass fails if any row's date cannot be resolved. -/
def computeCharges (curve : Curve) (sr lr af : ℚ) : List Row → Option (List ChargedRow)
  | [] => some []
  | r :: rs =>
    match chargeOne curve sr lr af r, computeCharges curve sr lr af rs with
    | some c, some cs => some (c :: cs)
    | _, _ => none

/-- A pandas NaN-skipping column sum (`aggfunc=np.sum`): `none` cells are
skipped, an all-`none` column sums to `0`. -/
def sumOpt (l : List (Option ℚ)) : ℚ :=
  l.foldr (fun o a => o.getD 0 + a) 0

/-- `Total Charge / kWh` as float division in pandas: a zero denominator
gives a non-finite value (`inf`/`NaN`) instead of raising; that non-finite
cell is modelled as `none`. -/
def effectiveRate (tc k : ℚ) : Option ℚ :=
  if k = 0 then none else some (tc / k)

/-- One row of the summary table (`pivot_df`). -/
structure SummaryRow where
  period : String
  kWh : ℚ
  solarCons : ℚ
  nonSolarCons : ℚ
  solarCharge : ℚ
  nonSolarCharge : ℚ
  totalCharge : ℚ
  effRate : Option ℚ
  deriving DecidableEq, Repr

/-- The pivot row of one supply-period group: NaN-skipping sums of each
value column over the group, with the `Effective Rate (pHp/kWh)` column. -/
def mkRow (charged : List ChargedRow) (l : String) : SummaryRow :=
  let grp := charged.filter fun c => c.period == l
  let k := (grp.map (·.kWh)).sum
  let tc := sumOpt (grp.map (·.totalCharge))
  ⟨l, k, sumOpt (grp.map (·.solarCons)), sumOpt (grp.map (·.nonSolarCons)),
    sumOpt (grp.map (·.solarCharge)), sumOpt (grp.map (·.nonSolarCharge)),
    tc, effectiveRate tc k⟩

/-- Lexicographic (code-point) string comparison, the order Python uses
for strings: `a ≤ b` on the character lists. -/
def charListLe : List Char → List Char → Bool
  | [], _ => true
  | _ :: _, [] => false
  | a :: as, b :: bs =>
    if a < b then true else if b < a then false else charListLe as bs

/-- `df.pivot_table(index=['Supply Period'], ..., aggfunc=np.sum)` plus the
effective-rate column: one row per distinct label, the index sorted
ascending as strings (pandas' default). -/
def pivotTable (charged : List ChargedRow) : List SummaryRow :=
  let labels := (charged.map (·.period)).dedup
  (labels.insertionSort fun a b => charListLe a.data b.data = true).map
    (mkRow charged)

/-- `pivot_df.sort_values(by='Supply Period Date')`: stable sort by the
parsed `%b-%y` label. -/
def sortSummaries (l : List SummaryRow) : List SummaryRow :=
  l.insertionSort fun a b => sortKey a.period ≤ sortKey b.period

/-- The synthetic `Grand Total` row: each numeric column summed over the
summary rows, with its own effective rate. -/
def grandTotalRow (l : List SummaryRow) : SummaryRow :=
  let k := (l.map (·.kWh)).sum
  let tc := (l.map (·.totalCharge)).sum
  ⟨"Grand Total", k, (l.map (·.solarCons)).sum, (l.map (·.nonSolarCons)).sum,
    (l.map (·.solarCharge)).sum, (l.map (·.nonSolarCharge)).sum,
    tc, effectiveRate tc k⟩

/-- The summary table: pivot rows sorted by parsed label, then the grand
total appended as the last row. -/
def aggregate (charged : List ChargedRow) : List SummaryRow :=
  let p := sortSummaries (pivotTable charged)
  p ++ [grandTotalRow p]

/-- `clip(lower=0, upper=100)` over the guarantee column. -/
def clampCurve (curve : Curve) : Curve :=
  curve.map fun p => (p.1, max 0 (min 100 p.2))

/-- The validation gate of Step 2: if any guarantee percent is out of
`[0,100]` the script clips the column and calls `st.stop()`, halting the
run before any charge is computed; `Except.error` carries the clipped
table of that halted run. -/
def validateCurve (curve : Curve) : Except Curve Curve :=
  if (curve.any fun p => decide (p.2 < 0)) || (curve.any fun p => decide (100 < p.2)) then
    .error (clampCurve curve)
  else .ok curve

/-- The calculation run end to end: validate (possibly clamp and halt),
compute the detailed charges, aggregate the summary table. -/
def runCalc (curve : Curve) (sr lr af : ℚ) (rows : List Row) :
    Except Curve (Option (List ChargedRow × List SummaryRow)) :=
  match validateCurve curve with
  | .error c => .error c
  | .ok c =>
    .ok ((computeCharges c sr lr af rows).map fun ch => (ch, aggregate ch))

/-- The charged row `chargeOne` produces on a valid date, as a total
function. -/
def chargedOf (curve : Curve) (sr lr af : ℚ) (r : Row) : ChargedRow :=
  ⟨r.dt, r.hour, r.wesm, r.kWh,
   (lookupGuarantee curve r.hour).map fun g => r.kWh * g / 100,
   (lookupGuarantee curve r.hour).map fun g => r.kWh - r.kWh * g / 100,
   (lookupGuarantee curve r.hour).map fun g => r.kWh * g / 100 * (sr + lr),
   (lookupGuarantee curve r.hour).map fun g =>
     (r.kWh - r.kWh * g / 100) * (r.wesm + af),
   (lookupGuarantee curve r.hour).map fun g =>
     r.kWh * g / 100 * (sr + lr) + (r.kWh - r.kWh * g / 100) * (r.wesm + af),
   fmtLabel (endOf r.dt), endOf r.dt⟩

theorem chargeOne_eq (curve : Curve) (sr lr af : ℚ) (r : Row)
    (hv : validDate r.dt) :
    chargeOne curve sr lr af r = some (chargedOf curve sr lr af r) := by
  unfold chargeOne chargedOf
  rw [get_supply_period_eq r.dt hv, Option.map_some']

theorem computeCharges_eq (curve : Curve) (sr lr af : ℚ) (rows : List Row)
    (hv : ∀ r ∈ rows, validDate r.dt) :
    computeCharges curve sr lr af rows =
      some (rows.map (chargedOf curve sr lr af)) := by
  induction rows with
  | nil => rfl
  | cons r rs ih =>
    have h1 : chargeOne curve sr lr af r = some (chargedOf curve sr lr af r) :=
      chargeOne_eq curve sr lr af r (hv r (List.mem_cons_self r rs))
    have h2 := ih fun x hx => hv x (List.mem_cons_of_mem r hx)
    unfold computeCharges
    rw [h1, h2]
    rfl

/-- C1: for every input interval with a matched guarantee entry, the five
derived fields are computed exactly as
`solarEnergy = energy * guaranteePercent / 100`,
`nonSolarEnergy = energy - solarEnergy`,
`solarCharge = solarEnergy * (solarRate + lineRental)`,
`nonSolarCharge = nonSolarEnergy * (spotPrice + adminFee)`,
`totalCharge = solarCharge + nonSolarCharge`. -/
theorem c1_charge_formulas (curve : Curve) (sr lr af : ℚ) (r : Row) (g : ℚ)
    (hm : lookupGuarantee curve r.hour = some g) (hv : validDate r.dt) :
    ∃ c, chargeOne curve sr lr af r = some c ∧
      c.solarCons = some (r.kWh * g / 100) ∧
      c.nonSolarCons = some (r.kWh - r.kWh * g / 100) ∧
      c.solarCharge = some (r.kWh * g / 100 * (sr + lr)) ∧
      c.nonSolarCharge = some ((r.kWh - r.kWh * g / 100) * (r.wesm + af)) ∧
      c.totalCharge = some (r.kWh * g / 100 * (sr + lr) +
        (r.kWh - r.kWh * g / 100) * (r.wesm + af)) := by
  refine ⟨chargedOf curve sr lr af r, chargeOne_eq curve sr lr af r hv,
    ?_, ?_, ?_, ?_, ?_⟩ <;> simp [chargedOf, hm]

/-- Witness for C1 at the spec's end-to-end scenario: `kWh=10`, `wesm=5`,
hour 8 of the default curve (29%), `solarRate=2`, `lineRental=1`,
`adminFee=0.5` gives `solarEnergy=2.9`, `nonSolarEnergy=7.1`,
`solarCharge=8.7`, `nonSolarCharge=39.05`, `totalCharge=47.75`. -/
theorem c1_charge_formulas_witness :
    lookupGuarantee default_solar_guarantee 8 = some 29 ∧
    validDate ⟨2024, 1, 1⟩ ∧
    (∃ c, chargeOne default_solar_guarantee 2 1 (1/2)
        ⟨⟨2024, 1, 1⟩, 8, 5, 10⟩ = some c ∧
      c.solarCons = some ((10 : ℚ) * 29 / 100) ∧
      c.nonSolarCons = some ((10 : ℚ) - 10 * 29 / 100) ∧
      c.solarCharge = some ((10 : ℚ) * 29 / 100 * (2 + 1)) ∧
      c.nonSolarCharge = some (((10 : ℚ) - 10 * 29 / 100) * (5 + 1/2)) ∧
      c.totalCharge = some ((10 : ℚ) * 29 / 100 * (2 + 1) +
        ((10 : ℚ) - 10 * 29 / 100) * (5 + 1/2))) ∧
    ((10 : ℚ) * 29 / 100 = 29/10 ∧
     (10 : ℚ) - 10 * 29 / 100 = 71/10 ∧
     (10 : ℚ) * 29 / 100 * (2 + 1) = 87/10 ∧
     ((10 : ℚ) - 10 * 29 / 100) * (5 + 1/2) = 781/20 ∧
     (10 : ℚ) * 29 / 100 * (2 + 1) +
       ((10 : ℚ) - 10 * 29 / 100) * (5 + 1/2) = 191/4) :=
  ⟨by decide, by decide,
   c1_charge_formulas default_solar_guarantee 2 1 (1/2)
     ⟨⟨2024, 1, 1⟩, 8, 5, 10⟩ 29 (by decide) (by decide),
   by norm_num⟩

/-- C8: for energy `e` and guarantee percent `g ∈ [0,100]`,
`solarEnergy + nonSolarEnergy = e` and `solarEnergy = e*g/100`; and
`totalCharge = solarCharge + nonSolarCharge` exactly. -/
theorem c8_allocation_identities (curve : Curve) (sr lr af : ℚ) (r : Row)
    (g : ℚ) (_h0 : 0 ≤ g) (_h1 : g ≤ 100)
    (hm : lookupGuarantee curve r.hour = some g) (hv : validDate r.dt) :
    ∃ c, chargeOne curve sr lr af r = some c ∧
      (∃ s n, c.solarCons = some s ∧ c.nonSolarCons = some n ∧
        s + n = r.kWh ∧ s = r.kWh * g / 100) ∧
      (∃ a b t, c.solarCharge = some a ∧ c.nonSolarCharge = some b ∧
        c.totalCharge = some t ∧ t = a + b) := by
  refine ⟨chargedOf curve sr lr af r, chargeOne_eq curve sr lr af r hv, ?_, ?_⟩
  · exact ⟨r.kWh * g / 100, r.kWh - r.kWh * g / 100,
      by simp [chargedOf, hm], by simp [chargedOf, hm], by ring, rfl⟩
  · exact ⟨r.kWh * g / 100 * (sr + lr),
      (r.kWh - r.kWh * g / 100) * (r.wesm + af), _,
      by simp [chargedOf, hm], by simp [chargedOf, hm],
      by simp [chargedOf, hm], rfl⟩

/-- Witness for C8 at hour 10 of the default curve (79%), `kWh=4`,
`wesm=-3` (a negative spot price). -/
theorem c8_allocation_identities_witness :
    (0 : ℚ) ≤ 79 ∧ (79 : ℚ) ≤ 100 ∧
    lookupGuarantee default_solar_guarantee 10 = some 79 ∧
    validDate ⟨2025, 6, 30⟩ ∧
    (∃ c, chargeOne default_solar_guarantee 3 (1/2) 2
        ⟨⟨2025, 6, 30⟩, 10, -3, 4⟩ = some c ∧
      (∃ s n, c.solarCons = some s ∧ c.nonSolarCons = some n ∧
        s + n = 4 ∧ s = (4 : ℚ) * 79 / 100) ∧
      (∃ a b t, c.solarCharge = some a ∧ c.nonSolarCharge = some b ∧
        c.totalCharge = some t ∧ t = a + b)) :=
  ⟨by norm_num, by norm_num, by decide, by decide,
   c8_allocation_identities default_solar_guarantee 3 (1/2) 2
     ⟨⟨2025, 6, 30⟩, 10, -3, 4⟩ 79 (by norm_num) (by norm_num)
     (by decide) (by decide)⟩

/-- C3: on every valid date, if `day ≥ 26` the period ends on day 25 of
the following month, otherwise on day 25 of the date's own month, and the
label is the abbreviated month-year (`%b-%y`) of the end date. -/
theorem c3_period_boundaries (d : Date) (hv : validDate d) :
    ∃ l e, get_supply_period d = some (l, e) ∧
      (26 ≤ d.day →
        e = ⟨(if d.month = 12 then d.year + 1 else d.year),
             (if d.month = 12 then 1 else d.month + 1), 25⟩) ∧
      (d.day < 26 → e = ⟨d.year, d.month, 25⟩) ∧
      l = fmtLabel e := by
  refine ⟨fmtLabel (endOf d), endOf d, get_supply_period_eq d hv, ?_, ?_, rfl⟩
  · intro h26
    unfold endOf nextYM
    rw [if_pos h26]
    by_cases h : d.month = 12 <;> simp [h]
  · intro h26
    unfold endOf
    rw [if_neg (by omega)]

/-- Witness for C3 at the boundary: `2024-01-25` resolves to the period
ending `2024-01-25` labelled `Jan-24`; `2024-01-26` resolves to the period
ending `2024-02-25` labelled `Feb-24`. -/
theorem c3_period_boundaries_witness :
    validDate ⟨2024, 1, 25⟩ ∧ validDate ⟨2024, 1, 26⟩ ∧
    (∃ l e, get_supply_period ⟨2024, 1, 25⟩ = some (l, e) ∧
      (26 ≤ 25 → e = ⟨2024, 2, 25⟩) ∧ (25 < 26 → e = ⟨2024, 1, 25⟩) ∧
      l = fmtLabel e) ∧
    (∃ l e, get_supply_period ⟨2024, 1, 26⟩ = some (l, e) ∧
      (26 ≤ 26 → e = ⟨2024, 2, 25⟩) ∧ (26 < 26 → e = ⟨2024, 1, 25⟩) ∧
      l = fmtLabel e) ∧
    get_supply_period ⟨2024, 1, 25⟩ = some ("Jan-24", ⟨2024, 1, 25⟩) ∧
    get_supply_period ⟨2024, 1, 26⟩ = some ("Feb-24", ⟨2024, 2, 25⟩) :=
  ⟨by decide, by decide, c3_period_boundaries ⟨2024, 1, 25⟩ (by decide),
   c3_period_boundaries ⟨2024, 1, 26⟩ (by decide), by decide, by decide⟩

/-- C9: the period resolver is total on every valid calendar date — it
returns a `(label, periodEnd)` pair, and the day-26 and day-25 anchors
exist in the month they are applied to (every month has at least 28
days). -/
theorem c9_resolver_total (d : Date) (hv : validDate d) :
    (∃ l e, get_supply_period d = some (l, e)) ∧
      26 ≤ daysInMonth d.year d.month ∧ 25 ≤ daysInMonth d.year d.month := by
  have h28 := daysInMonth_ge_28 d.year d.month
  exact ⟨⟨_, _, get_supply_period_eq d hv⟩, by omega, by omega⟩

/-- Witness for C9 at `2023-02-28`, the last day of a non-leap February. -/
theorem c9_resolver_total_witness :
    validDate ⟨2023, 2, 28⟩ ∧
    ((∃ l e, get_supply_period ⟨2023, 2, 28⟩ = some (l, e)) ∧
      26 ≤ daysInMonth 2023 2 ∧ 25 ≤ daysInMonth 2023 2) :=
  ⟨by decide, c9_resolver_total ⟨2023, 2, 28⟩ (by decide)⟩

theorem parseLabel_mkLabel' (m yy : Nat) (h1 : 1 ≤ m) (h2 : m ≤ 12)
    (hy : yy < 100) :
    parseLabel (mkLabel m yy) = some ⟨pivotYear yy, m, 1⟩ := by
  have h := parseLabel_mkLabel (m - 1) (by omega) yy hy
  have hm : m - 1 + 1 = m := by omega
  rw [hm] at h
  exact h

theorem pivotYear_inj (a b : Nat) (ha : a < 100) (hb : b < 100)
    (h : pivotYear a = pivotYear b) : a = b := by
  unfold pivotYear at h
  split at h <;> split at h <;> omega

/-- C10: the resolver's end date always falls on day 25, the label is the
`%b-%y` rendering of the end date, and within any hundred-year span the
label determines the end date uniquely (which is what justifies sorting
summary rows by the parsed label). -/
theorem c10_label_invariant :
    (∀ d : Date, validDate d → ∃ l e, get_supply_period d = some (l, e) ∧
      e.day = 25 ∧ l = fmtLabel e) ∧
    (∀ d₁ d₂ : Date, ∀ l₁ e₁ l₂ e₂, validDate d₁ → validDate d₂ →
      get_supply_period d₁ = some (l₁, e₁) →
      get_supply_period d₂ = some (l₂, e₂) →
      l₁ = l₂ → e₁.year ≤ e₂.year → e₂.year < e₁.year + 100 → e₁ = e₂) := by
  constructor
  · intro d hv
    exact ⟨fmtLabel (endOf d), endOf d, get_supply_period_eq d hv,
      endOf_day d, rfl⟩
  · intro d₁ d₂ l₁ e₁ l₂ e₂ hv₁ hv₂ h₁ h₂ hl hy₁ hy₂
    have g₁ := (get_supply_period_eq d₁ hv₁).symm.trans h₁
    have g₂ := (get_supply_period_eq d₂ hv₂).symm.trans h₂
    simp only [Option.some.injEq, Prod.mk.injEq] at g₁ g₂
    obtain ⟨hl₁, he₁⟩ := g₁
    obtain ⟨hl₂, he₂⟩ := g₂
    subst he₁; subst he₂; subst hl₁; subst hl₂
    have hb₁ := endOf_month_bounds d₁ hv₁
    have hb₂ := endOf_month_bounds d₂ hv₂
    have hm₁ : (endOf d₁).year % 100 < 100 := Nat.mod_lt _ (by norm_num)
    have hm₂ : (endOf d₂).year % 100 < 100 := Nat.mod_lt _ (by norm_num)
    have p₁ := parseLabel_mkLabel' (endOf d₁).month ((endOf d₁).year % 100)
      hb₁.1 hb₁.2 hm₁
    have p₂ := parseLabel_mkLabel' (endOf d₂).month ((endOf d₂).year % 100)
      hb₂.1 hb₂.2 hm₂
    unfold fmtLabel at hl
    have hpp : parseLabel (mkLabel (endOf d₁).month ((endOf d₁).year % 100)) =
        parseLabel (mkLabel (endOf d₂).month ((endOf d₂).year % 100)) := by
      rw [hl]
    rw [p₁, p₂] at hpp
    simp only [Option.some.injEq, Date.mk.injEq] at hpp
    obtain ⟨hpy, hmm, -⟩ := hpp
    have hyy := pivotYear_inj _ _ hm₁ hm₂ hpy
    have hyear : (endOf d₁).year = (endOf d₂).year := by omega
    have hd₁ := endOf_day d₁
    have hd₂ := endOf_day d₂
    calc endOf d₁ = ⟨(endOf d₁).year, (endOf d₁).month, (endOf d₁).day⟩ := rfl
      _ = ⟨(endOf d₂).year, (endOf d₂).month, (endOf d₂).day⟩ := by
          rw [hyear, hmm, hd₁, hd₂]
      _ = endOf d₂ := rfl

/-- Witness for C10: `2031-07-04` yields the day-25 end `2031-07-25`
labelled `Jul-31`; two dates of the same period (`2031-07-04` and
`2031-07-10`, equal labels, years within a century) resolve to the same
end date. -/
theorem c10_label_invariant_witness :
    validDate ⟨2031, 7, 4⟩ ∧ validDate ⟨2031, 7, 10⟩ ∧
    get_supply_period ⟨2031, 7, 4⟩ = some ("Jul-31", ⟨2031, 7, 25⟩) ∧
    get_supply_period ⟨2031, 7, 10⟩ = some ("Jul-31", ⟨2031, 7, 25⟩) ∧
    (∃ l e, get_supply_period ⟨2031, 7, 4⟩ = some (l, e) ∧
      e.day = 25 ∧ l = fmtLabel e) ∧
    (⟨2031, 7, 25⟩ : Date) = ⟨2031, 7, 25⟩ :=
  ⟨by decide, by decide, by decide, by decide,
   c10_label_invariant.1 ⟨2031, 7, 4⟩ (by decide),
   c10_label_invariant.2 ⟨2031, 7, 4⟩ ⟨2031, 7, 10⟩ "Jul-31" ⟨2031, 7, 25⟩
     "Jul-31" ⟨2031, 7, 25⟩ (by decide) (by decide) (by decide) (by decide)
     rfl (by decide) (by decide)⟩

theorem mem_aggregate_effRate (charged : List ChargedRow) (s : SummaryRow)
    (hs : s ∈ aggregate charged) :
    s.effRate = effectiveRate s.totalCharge s.kWh := by
  simp only [aggregate] at hs
  rcases List.mem_append.mp hs with h | h
  · unfold sortSummaries at h
    rw [List.mem_insertionSort] at h
    simp only [pivotTable, List.mem_map] at h
    obtain ⟨l, -, rfl⟩ := h
    rfl
  · simp only [List.mem_singleton] at h
    subst h
    rfl

/-- C4: every summary row (periods and the grand total) whose summed
energy is zero carries the explicit undefined effective rate `none`
(modelling the non-finite float pandas produces instead of raising), a
nonzero-energy row carries `totalCharge / kWh`, every charged row's period
still gets its summary row, and the output always has one row per distinct
period plus the grand total — no group aborts the aggregation. -/
theorem c4_zero_energy_groups (charged : List ChargedRow) :
    (∀ s ∈ aggregate charged, (s.kWh = 0 → s.effRate = none) ∧
      (s.kWh ≠ 0 → s.effRate = some (s.totalCharge / s.kWh))) ∧
    (∀ c ∈ charged, ∃ s ∈ aggregate charged, s.period = c.period) ∧
    (aggregate charged).length =
      ((charged.map (·.period)).dedup).length + 1 := by
  refine ⟨?_, ?_, ?_⟩
  · intro s hs
    have h := mem_aggregate_effRate charged s hs
    constructor
    · intro h0
      rw [h]
      unfold effectiveRate
      rw [if_pos h0]
    · intro hne
      rw [h]
      unfold effectiveRate
      rw [if_neg hne]
  · intro c hc
    have h1 : c.period ∈ (charged.map (·.period)).dedup :=
      List.mem_dedup.mpr (List.mem_map_of_mem _ hc)
    have h2 : mkRow charged c.period ∈ pivotTable charged := by
      simp only [pivotTable]
      exact List.mem_map_of_mem _ ((List.mem_insertionSort _).mpr h1)
    have h3 : mkRow charged c.period ∈ aggregate charged := by
      simp only [aggregate, sortSummaries]
      exact List.mem_append_left _ ((List.mem_insertionSort _).mpr h2)
    exact ⟨mkRow charged c.period, h3, rfl⟩
  · simp [aggregate, sortSummaries, pivotTable, List.length_insertionSort]

/-- C5: when any guarantee percentage lies outside `[0,100]` the run
halts with every value clamped to the nearest bound and no charge
computed: `runCalc` returns the clipped curve as an error, and the
clipping maps each value below `0` to `0` and above `100` to `100`. -/
theorem c5_clamp_then_halt (curve : Curve) (sr lr af : ℚ) (rows : List Row)
    (h : ∃ p ∈ curve, p.2 < 0 ∨ 100 < p.2) :
    runCalc curve sr lr af rows = .error (clampCurve curve) ∧
    clampCurve curve = curve.map fun p =>
      (p.1, if p.2 < 0 then (0 : ℚ) else if 100 < p.2 then 100 else p.2) := by
  constructor
  · have hb : ((curve.any fun p => decide (p.2 < 0)) ||
        (curve.any fun p => decide (100 < p.2))) = true := by
      simp only [Bool.or_eq_true, List.any_eq_true, decide_eq_true_eq]
      rcases h with ⟨p, hp, hlt | hgt⟩
      · exact Or.inl ⟨p, hp, hlt⟩
      · exact Or.inr ⟨p, hp, hgt⟩
    unfold runCalc validateCurve
    rw [if_pos hb]
  · unfold clampCurve
    apply List.map_congr_left
    intro p _
    by_cases h1 : p.2 < 0
    · rw [if_pos h1]
      have hmin : min (100 : ℚ) p.2 = p.2 := min_eq_right (by linarith)
      rw [hmin, max_eq_left (le_of_lt h1)]
    · by_cases h2 : 100 < p.2
      · rw [if_neg h1, if_pos h2]
        have hmin : min (100 : ℚ) p.2 = 100 := min_eq_left (le_of_lt h2)
        rw [hmin]
        norm_num
      · rw [if_neg h1, if_neg h2]
        have hmin : min (100 : ℚ) p.2 = p.2 := min_eq_right (not_lt.mp h2)
        rw [hmin, max_eq_right (not_lt.mp h1)]

/-- C6: the final row of the summary table is labelled `Grand Total`, each
of its numeric columns is the sum of that column over the per-period
summary rows before it, and its effective rate is its own total charge
divided by its own energy (with the zero-energy case explicit). -/
theorem c6_grand_total (charged : List ChargedRow) (_hne : charged ≠ []) :
    ∃ gt, (aggregate charged).getLast? = some gt ∧
      gt.period = "Grand Total" ∧
      gt.kWh = (((aggregate charged).dropLast).map (·.kWh)).sum ∧
      gt.solarCons = (((aggregate charged).dropLast).map (·.solarCons)).sum ∧
      gt.nonSolarCons =
        (((aggregate charged).dropLast).map (·.nonSolarCons)).sum ∧
      gt.solarCharge =
        (((aggregate charged).dropLast).map (·.solarCharge)).sum ∧
      gt.nonSolarCharge =
        (((aggregate charged).dropLast).map (·.nonSolarCharge)).sum ∧
      gt.totalCharge = (((aggregate charged).dropLast).map (·.totalCharge)).sum ∧
      gt.effRate = effectiveRate gt.totalCharge gt.kWh := by
  refine ⟨grandTotalRow (sortSummaries (pivotTable charged)), ?_, rfl, ?_⟩
  · simp only [aggregate]
    exact List.getLast?_concat _
  · simp only [aggregate]
    rw [List.dropLast_concat]
    exact ⟨rfl, rfl, rfl, rfl, rfl, rfl, rfl⟩

/-- Witness for C6 on a one-row charged table. -/
theorem c6_grand_total_witness :
    (([⟨⟨2024, 1, 1⟩, 1, 5, 2, some 1, some 1, some 3, some 6, some 9,
        "Jan-24", ⟨2024, 1, 25⟩⟩] : List ChargedRow) ≠ []) ∧
    (∃ gt, (aggregate [⟨⟨2024, 1, 1⟩, 1, 5, 2, some 1, some 1, some 3, some 6,
        some 9, "Jan-24", ⟨2024, 1, 25⟩⟩]).getLast? = some gt ∧
      gt.period = "Grand Total" ∧
      gt.kWh = (((aggregate [⟨⟨2024, 1, 1⟩, 1, 5, 2, some 1, some 1, some 3,
        some 6, some 9, "Jan-24", ⟨2024, 1, 25⟩⟩]).dropLast).map (·.kWh)).sum ∧
      gt.solarCons = (((aggregate [⟨⟨2024, 1, 1⟩, 1, 5, 2, some 1, some 1,
        some 3, some 6, some 9, "Jan-24",
        ⟨2024, 1, 25⟩⟩]).dropLast).map (·.solarCons)).sum ∧
      gt.nonSolarCons = (((aggregate [⟨⟨2024, 1, 1⟩, 1, 5, 2, some 1, some 1,
        some 3, some 6, some 9, "Jan-24",
        ⟨2024, 1, 25⟩⟩]).dropLast).map (·.nonSolarCons)).sum ∧
      gt.solarCharge = (((aggregate [⟨⟨2024, 1, 1⟩, 1, 5, 2, some 1, some 1,
        some 3, some 6, some 9, "Jan-24",
        ⟨2024, 1, 25⟩⟩]).dropLast).map (·.solarCharge)).sum ∧
      gt.nonSolarCharge = (((aggregate [⟨⟨2024, 1, 1⟩, 1, 5, 2, some 1, some 1,
        some 3, some 6, some 9, "Jan-24",
        ⟨2024, 1, 25⟩⟩]).dropLast).map (·.nonSolarCharge)).sum ∧
      gt.totalCharge = (((aggregate [⟨⟨2024, 1, 1⟩, 1, 5, 2, some 1, some 1,
        some 3, some 6, some 9, "Jan-24",
        ⟨2024, 1, 25⟩⟩]).dropLast).map (·.totalCharge)).sum ∧
      gt.effRate = effectiveRate gt.totalCharge gt.kWh) :=
  ⟨List.cons_ne_nil _ _,
   c6_grand_total [⟨⟨2024, 1, 1⟩, 1, 5, 2, some 1, some 1, some 3, some 6,
     some 9, "Jan-24", ⟨2024, 1, 25⟩⟩] (List.cons_ne_nil _ _)⟩

/-- Witness for C5 on a curve holding `-5` and `150`: the run halts with
the clipped curve `[(1,0),(2,100),(3,50)]` and no charge output. -/
theorem c5_clamp_then_halt_witness :
    (∃ p ∈ ([(1, -5), (2, 150), (3, 50)] : Curve), p.2 < 0 ∨ 100 < p.2) ∧
    (runCalc [(1, -5), (2, 150), (3, 50)] 2 1 (1/2) [] =
        .error (clampCurve [(1, -5), (2, 150), (3, 50)]) ∧
      clampCurve [(1, -5), (2, 150), (3, 50)] =
        ([(1, -5), (2, 150), (3, 50)] : Curve).map fun p =>
          (p.1, if p.2 < 0 then (0 : ℚ) else if 100 < p.2 then 100 else p.2)) ∧
    clampCurve [(1, -5), (2, 150), (3, 50)] = [(1, 0), (2, 100), (3, 50)] :=
  ⟨⟨(1, -5), List.mem_cons_self _ _, Or.inl (by norm_num)⟩,
   c5_clamp_then_halt [(1, -5), (2, 150), (3, 50)] 2 1 (1/2) []
     ⟨(1, -5), List.mem_cons_self _ _, Or.inl (by norm_num)⟩,
   by norm_num [clampCurve, min_def, max_def]⟩

/-- Witness for C4: a one-row charged table with zero energy yields a
summary whose period row and grand-total row both carry zero energy and
the explicit undefined rate `none`. -/
theorem c4_zero_energy_groups_witness :
    (⟨"Jan-24", 0, 0, 0, 0, 0, 0, none⟩ : SummaryRow) ∈
      aggregate [⟨⟨2024, 1, 1⟩, 1, 5, 0, some 0, some 0, some 0, some 0,
        some 0, "Jan-24", ⟨2024, 1, 25⟩⟩] ∧
    (⟨"Jan-24", 0, 0, 0, 0, 0, 0, none⟩ : SummaryRow).kWh = 0 ∧
    (⟨"Jan-24", 0, 0, 0, 0, 0, 0, none⟩ : SummaryRow).effRate = none := by
  have hlab : (([⟨⟨2024, 1, 1⟩, 1, 5, 0, some 0, some 0, some 0, some 0,
      some 0, "Jan-24", ⟨2024, 1, 25⟩⟩] : List ChargedRow).map
      (fun c => c.period)).dedup = ["Jan-24"] := by decide
  have hagg : aggregate [⟨⟨2024, 1, 1⟩, 1, 5, 0, some 0, some 0, some 0,
      some 0, some 0, "Jan-24", ⟨2024, 1, 25⟩⟩] =
      [⟨"Jan-24", 0, 0, 0, 0, 0, 0, none⟩,
       ⟨"Grand Total", 0, 0, 0, 0, 0, 0, none⟩] := by
    norm_num [aggregate, sortSummaries, pivotTable, hlab, mkRow, sumOpt,
      effectiveRate, grandTotalRow, List.filter]
  have hmem : (⟨"Jan-24", 0, 0, 0, 0, 0, 0, none⟩ : SummaryRow) ∈
      aggregate [⟨⟨2024, 1, 1⟩, 1, 5, 0, some 0, some 0, some 0, some 0,
        some 0, "Jan-24", ⟨2024, 1, 25⟩⟩] := by
    rw [hagg]
    exact List.mem_cons_self _ _
  refine ⟨hmem, rfl, ?_⟩
  have h := ((c4_zero_energy_groups [⟨⟨2024, 1, 1⟩, 1, 5, 0, some 0, some 0,
    some 0, some 0, some 0, "Jan-24", ⟨2024, 1, 25⟩⟩]).1 _ hmem).1 rfl
  exact h

/-- C2 counterexample: with the default curve and one row carrying the
unmatched hour `25`, the run is NOT rejected: `runCalc` succeeds, the
detailed table keeps both rows (the unmatched one with all-`NaN` charges),
and a summary table is produced — no `LookupError`-style failure occurs. -/
theorem c2_counterexample :
    runCalc default_solar_guarantee 2 1 (1/2)
        [⟨⟨2024, 1, 1⟩, 8, 5, 10⟩, ⟨⟨2024, 1, 1⟩, 25, 5, 10⟩] =
      .ok (some
        ([⟨⟨2024, 1, 1⟩, 8, 5, 10, some (29/10), some (71/10), some (87/10),
           some (781/20), some (191/4), "Jan-24", ⟨2024, 1, 25⟩⟩,
          ⟨⟨2024, 1, 1⟩, 25, 5, 10, none, none, none, none, none, "Jan-24",
           ⟨2024, 1, 25⟩⟩],
         [⟨"Jan-24", 20, 29/10, 71/10, 87/10, 781/20, 191/4, some (191/80)⟩,
          ⟨"Grand Total", 20, 29/10, 71/10, 87/10, 781/20, 191/4,
           some (191/80)⟩])) := by
  have hval : validateCurve default_solar_guarantee =
      .ok default_solar_guarantee := rfl
  have hg8 : lookupGuarantee default_solar_guarantee 8 = some 29 := by decide
  have hg25 : lookupGuarantee default_solar_guarantee 25 = none := by decide
  have hp : get_supply_period ⟨2024, 1, 1⟩ =
      some ("Jan-24", ⟨2024, 1, 25⟩) := by decide
  have hc1 : chargeOne default_solar_guarantee 2 1 (1/2)
      ⟨⟨2024, 1, 1⟩, 8, 5, 10⟩ =
      some ⟨⟨2024, 1, 1⟩, 8, 5, 10, some (29/10), some (71/10), some (87/10),
            some (781/20), some (191/4), "Jan-24", ⟨2024, 1, 25⟩⟩ := by
    simp only [chargeOne, hp, hg8, Option.map_some']
    norm_num
  have hc2 : chargeOne default_solar_guarantee 2 1 (1/2)
      ⟨⟨2024, 1, 1⟩, 25, 5, 10⟩ =
      some ⟨⟨2024, 1, 1⟩, 25, 5, 10, none, none, none, none, none, "Jan-24",
            ⟨2024, 1, 25⟩⟩ := by
    simp only [chargeOne, hp, hg25, Option.map_some', Option.map_none']
  have hch : computeCharges default_solar_guarantee 2 1 (1/2)
      [⟨⟨2024, 1, 1⟩, 8, 5, 10⟩, ⟨⟨2024, 1, 1⟩, 25, 5, 10⟩] =
      some [⟨⟨2024, 1, 1⟩, 8, 5, 10, some (29/10), some (71/10),
             some (87/10), some (781/20), some (191/4), "Jan-24",
             ⟨2024, 1, 25⟩⟩,
            ⟨⟨2024, 1, 1⟩, 25, 5, 10, none, none, none, none, none,
             "Jan-24", ⟨2024, 1, 25⟩⟩] := by
    simp only [computeCharges, hc1, hc2]
  have hlab : (([⟨⟨2024, 1, 1⟩, 8, 5, 10, some (29/10), some (71/10),
      some (87/10), some (781/20), some (191/4), "Jan-24", ⟨2024, 1, 25⟩⟩,
      ⟨⟨2024, 1, 1⟩, 25, 5, 10, none, none, none, none, none, "Jan-24",
       ⟨2024, 1, 25⟩⟩] : List ChargedRow).map
      (fun c => c.period)).dedup = ["Jan-24"] := by decide
  have hagg : aggregate [⟨⟨2024, 1, 1⟩, 8, 5, 10, some (29/10), some (71/10),
      some (87/10), some (781/20), some (191/4), "Jan-24", ⟨2024, 1, 25⟩⟩,
      ⟨⟨2024, 1, 1⟩, 25, 5, 10, none, none, none, none, none, "Jan-24",
       ⟨2024, 1, 25⟩⟩] =
      [⟨"Jan-24", 20, 29/10, 71/10, 87/10, 781/20, 191/4, some (191/80)⟩,
       ⟨"Grand Total", 20, 29/10, 71/10, 87/10, 781/20, 191/4,
        some (191/80)⟩] := by
    norm_num [aggregate, sortSummaries, pivotTable, hlab, mkRow, sumOpt,
      effectiveRate, grandTotalRow, List.filter]
  simp only [runCalc, hval, hch, hagg, Option.map_some']

/-- C2 (amended): a row whose hour has no matching guarantee entry does
not abort the run.  The left join leaves its guarantee null, all five of
its derived fields are `NaN` (`none`), matched rows compute normally, and
the output table keeps every input row. -/
theorem c2_left_join_keeps_rows (curve : Curve) (sr lr af : ℚ)
    (rows : List Row) (hv : ∀ r ∈ rows, validDate r.dt) :
    ∃ charged, computeCharges curve sr lr af rows = some charged ∧
      charged.length = rows.length ∧
      List.Forall₂ (fun (r : Row) (c : ChargedRow) =>
        (lookupGuarantee curve r.hour = none → c.solarCons = none ∧
          c.nonSolarCons = none ∧ c.solarCharge = none ∧
          c.nonSolarCharge = none ∧ c.totalCharge = none) ∧
        (∀ g, lookupGuarantee curve r.hour = some g →
          c.solarCons = some (r.kWh * g / 100) ∧
          c.totalCharge = some (r.kWh * g / 100 * (sr + lr) +
            (r.kWh - r.kWh * g / 100) * (r.wesm + af)))) rows charged := by
  refine ⟨rows.map (chargedOf curve sr lr af),
    computeCharges_eq curve sr lr af rows hv, by simp, ?_⟩
  rw [List.forall₂_map_right_iff, List.forall₂_same]
  intro r _
  constructor
  · intro hnone
    simp [chargedOf, hnone]
  · intro g hg
    simp [chargedOf, hg]

/-- Witness for the amended C2 at the counterexample's input (hours 8 and
25). -/
theorem c2_left_join_keeps_rows_witness :
    (∀ r ∈ ([⟨⟨2024, 1, 1⟩, 8, 5, 10⟩, ⟨⟨2024, 1, 1⟩, 25, 5, 10⟩] :
      List Row), validDate r.dt) ∧
    (∃ charged, computeCharges default_solar_guarantee 2 1 (1/2)
        [⟨⟨2024, 1, 1⟩, 8, 5, 10⟩, ⟨⟨2024, 1, 1⟩, 25, 5, 10⟩] =
          some charged ∧
      charged.length = ([⟨⟨2024, 1, 1⟩, 8, 5, 10⟩,
        ⟨⟨2024, 1, 1⟩, 25, 5, 10⟩] : List Row).length ∧
      List.Forall₂ (fun (r : Row) (c : ChargedRow) =>
        (lookupGuarantee default_solar_guarantee r.hour = none →
          c.solarCons = none ∧ c.nonSolarCons = none ∧ c.solarCharge = none ∧
          c.nonSolarCharge = none ∧ c.totalCharge = none) ∧
        (∀ g, lookupGuarantee default_solar_guarantee r.hour = some g →
          c.solarCons = some (r.kWh * g / 100) ∧
          c.totalCharge = some (r.kWh * g / 100 * (2 + 1) +
            (r.kWh - r.kWh * g / 100) * (r.wesm + 1/2))))
        [⟨⟨2024, 1, 1⟩, 8, 5, 10⟩, ⟨⟨2024, 1, 1⟩, 25, 5, 10⟩] charged) :=
  ⟨by decide,
   c2_left_join_keeps_rows default_solar_guarantee 2 1 (1/2)
     [⟨⟨2024, 1, 1⟩, 8, 5, 10⟩, ⟨⟨2024, 1, 1⟩, 25, 5, 10⟩] (by decide)⟩

theorem computeCharges_mem (curve : Curve) (sr lr af : ℚ) (rows : List Row)
    (charged : List ChargedRow) (hv : ∀ r ∈ rows, validDate r.dt)
    (hc : computeCharges curve sr lr af rows = some charged) :
    ∀ c ∈ charged, ∃ r ∈ rows,
      c.period = fmtLabel (endOf r.dt) ∧ c.periodEnd = endOf r.dt := by
  rw [computeCharges_eq curve sr lr af rows hv] at hc
  obtain rfl : rows.map (chargedOf curve sr lr af) = charged :=
    Option.some.inj hc
  intro c hcm
  obtain ⟨r, hr, rfl⟩ := List.mem_map.mp hcm
  exact ⟨r, hr, rfl, rfl⟩

theorem sortKey_fmtLabel (e : Date) (hm1 : 1 ≤ e.month) (hm12 : e.month ≤ 12)
    (hy1 : 1969 ≤ e.year) (hy2 : e.year ≤ 2068) :
    sortKey (fmtLabel e) = dateKey ⟨e.year, e.month, 1⟩ := by
  unfold sortKey fmtLabel
  rw [parseLabel_mkLabel' e.month (e.year % 100) hm1 hm12
    (Nat.mod_lt _ (by norm_num))]
  have hp : pivotYear (e.year % 100) = e.year := by
    unfold pivotYear
    split <;> omega
  simp [hp]

/-- C7 (amended): provided every supply-period end year lies in the
1969–2068 window where the `%y` two-digit pivot is the identity, the
summary rows appear in ascending chronological order of the supply-period
end date of their member rows — for any input order — and the grand-total
row is always last, outside the sort. -/
theorem c7_sorted_within_pivot_window (curve : Curve) (sr lr af : ℚ)
    (rows : List Row) (charged : List ChargedRow)
    (hv : ∀ r ∈ rows, validDate r.dt)
    (hw : ∀ r ∈ rows, 1969 ≤ (endOf r.dt).year ∧ (endOf r.dt).year ≤ 2068)
    (hc : computeCharges curve sr lr af rows = some charged) :
    ((aggregate charged).map (·.period)).getLast? = some "Grand Total" ∧
    ((aggregate charged).dropLast).Pairwise (fun a b =>
      ∀ ca ∈ charged, ∀ cb ∈ charged, ca.period = a.period →
        cb.period = b.period → dateKey ca.periodEnd ≤ dateKey cb.periodEnd) := by
  have hmem := computeCharges_mem curve sr lr af rows charged hv hc
  have hkey : ∀ c ∈ charged,
      sortKey c.period = dateKey ⟨c.periodEnd.year, c.periodEnd.month, 1⟩ ∧
      c.periodEnd.day = 25 := by
    intro c hcm
    obtain ⟨r, hr, hper, hpe⟩ := hmem c hcm
    have hb := endOf_month_bounds r.dt (hv r hr)
    have hwb := hw r hr
    rw [hper, hpe]
    exact ⟨sortKey_fmtLabel (endOf r.dt) hb.1 hb.2 hwb.1 hwb.2, endOf_day r.dt⟩
  constructor
  · simp only [aggregate, List.map_append, List.map_cons, List.map_nil]
    rw [List.getLast?_concat]
    rfl
  · simp only [aggregate]
    rw [List.dropLast_concat]
    have hsorted : (sortSummaries (pivotTable charged)).Pairwise
        (fun a b => sortKey a.period ≤ sortKey b.period) := by
      unfold sortSummaries
      haveI : IsTotal SummaryRow
          (fun a b => sortKey a.period ≤ sortKey b.period) :=
        ⟨fun a b => Nat.le_total _ _⟩
      haveI : IsTrans SummaryRow
          (fun a b => sortKey a.period ≤ sortKey b.period) :=
        ⟨fun a b c => Nat.le_trans⟩
      exact List.sorted_insertionSort _ _
    refine hsorted.imp ?_
    intro a b hab ca hca cb hcb hpa hpb
    obtain ⟨hka, hda⟩ := hkey ca hca
    obtain ⟨hkb, hdb⟩ := hkey cb hcb
    rw [← hpa, ← hpb] at hab
    rw [hka, hkb] at hab
    unfold dateKey at hab ⊢
    simp only at hab
    omega

/-- Witness for the amended C7 on two rows in periods `Jan-24` and
`Feb-24`. -/
theorem c7_sorted_within_pivot_window_witness :
    (∀ r ∈ ([⟨⟨2024, 1, 1⟩, 1, 5, 10⟩, ⟨⟨2024, 2, 1⟩, 1, 5, 10⟩] :
      List Row), validDate r.dt) ∧
    (∀ r ∈ ([⟨⟨2024, 1, 1⟩, 1, 5, 10⟩, ⟨⟨2024, 2, 1⟩, 1, 5, 10⟩] :
      List Row), 1969 ≤ (endOf r.dt).year ∧ (endOf r.dt).year ≤ 2068) ∧
    computeCharges default_solar_guarantee 2 1 (1/2)
        [⟨⟨2024, 1, 1⟩, 1, 5, 10⟩, ⟨⟨2024, 2, 1⟩, 1, 5, 10⟩] =
      some [⟨⟨2024, 1, 1⟩, 1, 5, 10, some 0, some 10, some 0, some 55,
             some 55, "Jan-24", ⟨2024, 1, 25⟩⟩,
            ⟨⟨2024, 2, 1⟩, 1, 5, 10, some 0, some 10, some 0, some 55,
             some 55, "Feb-24", ⟨2024, 2, 25⟩⟩] ∧
    (((aggregate [⟨⟨2024, 1, 1⟩, 1, 5, 10, some 0, some 10, some 0, some 55,
        some 55, "Jan-24", ⟨2024, 1, 25⟩⟩,
       ⟨⟨2024, 2, 1⟩, 1, 5, 10, some 0, some 10, some 0, some 55, some 55,
        "Feb-24", ⟨2024, 2, 25⟩⟩]).map (·.period)).getLast? =
      some "Grand Total" ∧
    ((aggregate [⟨⟨2024, 1, 1⟩, 1, 5, 10, some 0, some 10, some 0, some 55,
        some 55, "Jan-24", ⟨2024, 1, 25⟩⟩,
       ⟨⟨2024, 2, 1⟩, 1, 5, 10, some 0, some 10, some 0, some 55, some 55,
        "Feb-24", ⟨2024, 2, 25⟩⟩]).dropLast).Pairwise (fun a b =>
      ∀ ca ∈ ([⟨⟨2024, 1, 1⟩, 1, 5, 10, some 0, some 10, some 0, some 55,
          some 55, "Jan-24", ⟨2024, 1, 25⟩⟩,
         ⟨⟨2024, 2, 1⟩, 1, 5, 10, some 0, some 10, some 0, some 55, some 55,
          "Feb-24", ⟨2024, 2, 25⟩⟩] : List ChargedRow),
        ∀ cb ∈ ([⟨⟨2024, 1, 1⟩, 1, 5, 10, some 0, some 10, some 0, some 55,
          some 55, "Jan-24", ⟨2024, 1, 25⟩⟩,
         ⟨⟨2024, 2, 1⟩, 1, 5, 10, some 0, some 10, some 0, some 55, some 55,
          "Feb-24", ⟨2024, 2, 25⟩⟩] : List ChargedRow),
        ca.period = a.period → cb.period = b.period →
          dateKey ca.periodEnd ≤ dateKey cb.periodEnd)) := by
  have hg1 : lookupGuarantee default_solar_guarantee 1 = some 0 := by decide
  have hpJ : get_supply_period ⟨2024, 1, 1⟩ =
      some ("Jan-24", ⟨2024, 1, 25⟩) := by decide
  have hpF : get_supply_period ⟨2024, 2, 1⟩ =
      some ("Feb-24", ⟨2024, 2, 25⟩) := by decide
  have hc1 : chargeOne default_solar_guarantee 2 1 (1/2)
      ⟨⟨2024, 1, 1⟩, 1, 5, 10⟩ =
      some ⟨⟨2024, 1, 1⟩, 1, 5, 10, some 0, some 10, some 0, some 55,
            some 55, "Jan-24", ⟨2024, 1, 25⟩⟩ := by
    simp only [chargeOne, hpJ, hg1, Option.map_some']
    norm_num
  have hc2 : chargeOne default_solar_guarantee 2 1 (1/2)
      ⟨⟨2024, 2, 1⟩, 1, 5, 10⟩ =
      some ⟨⟨2024, 2, 1⟩, 1, 5, 10, some 0, some 10, some 0, some 55,
            some 55, "Feb-24", ⟨2024, 2, 25⟩⟩ := by
    simp only [chargeOne, hpF, hg1, Option.map_some']
    norm_num
  have hch : computeCharges default_solar_guarantee 2 1 (1/2)
      [⟨⟨2024, 1, 1⟩, 1, 5, 10⟩, ⟨⟨2024, 2, 1⟩, 1, 5, 10⟩] =
      some [⟨⟨2024, 1, 1⟩, 1, 5, 10, some 0, some 10, some 0, some 55,
             some 55, "Jan-24", ⟨2024, 1, 25⟩⟩,
            ⟨⟨2024, 2, 1⟩, 1, 5, 10, some 0, some 10, some 0, some 55,
             some 55, "Feb-24", ⟨2024, 2, 25⟩⟩] := by
    simp only [computeCharges, hc1, hc2]
  exact ⟨by decide, by decide, hch,
    c7_sorted_within_pivot_window default_solar_guarantee 2 1 (1/2)
      [⟨⟨2024, 1, 1⟩, 1, 5, 10⟩, ⟨⟨2024, 2, 1⟩, 1, 5, 10⟩] _
      (by decide) (by decide) hch⟩

/-- C7 counterexample: with rows ending the `Dec-68` (2068-12-25) and
`Jan-69` (2069-01-25) periods, the `%y` pivot parses `Jan-69` as 1969, so
the summary lists the later-ending period first — the rows are not in
chronological `supplyPeriodEnd` order. -/
theorem c7_counterexample :
    computeCharges default_solar_guarantee 0 0 0
        [⟨⟨2068, 12, 1⟩, 1, 0, 1⟩, ⟨⟨2069, 1, 1⟩, 1, 0, 1⟩] =
      some [⟨⟨2068, 12, 1⟩, 1, 0, 1, some 0, some 1, some 0, some 0, some 0,
             "Dec-68", ⟨2068, 12, 25⟩⟩,
            ⟨⟨2069, 1, 1⟩, 1, 0, 1, some 0, some 1, some 0, some 0, some 0,
             "Jan-69", ⟨2069, 1, 25⟩⟩] ∧
    (aggregate [⟨⟨2068, 12, 1⟩, 1, 0, 1, some 0, some 1, some 0, some 0,
        some 0, "Dec-68", ⟨2068, 12, 25⟩⟩,
       ⟨⟨2069, 1, 1⟩, 1, 0, 1, some 0, some 1, some 0, some 0, some 0,
        "Jan-69", ⟨2069, 1, 25⟩⟩]).map (fun s => s.period) =
      ["Jan-69", "Dec-68", "Grand Total"] ∧
    dateKey ⟨2068, 12, 25⟩ < dateKey ⟨2069, 1, 25⟩ := by
  have hg1 : lookupGuarantee default_solar_guarantee 1 = some 0 := by decide
  have hpD : get_supply_period ⟨2068, 12, 1⟩ =
      some ("Dec-68", ⟨2068, 12, 25⟩) := by decide
  have hpJ : get_supply_period ⟨2069, 1, 1⟩ =
      some ("Jan-69", ⟨2069, 1, 25⟩) := by decide
  have hc1 : chargeOne default_solar_guarantee 0 0 0
      ⟨⟨2068, 12, 1⟩, 1, 0, 1⟩ =
      some ⟨⟨2068, 12, 1⟩, 1, 0, 1, some 0, some 1, some 0, some 0, some 0,
            "Dec-68", ⟨2068, 12, 25⟩⟩ := by
    simp only [chargeOne, hpD, hg1, Option.map_some']
    norm_num
  have hc2 : chargeOne default_solar_guarantee 0 0 0
      ⟨⟨2069, 1, 1⟩, 1, 0, 1⟩ =
      some ⟨⟨2069, 1, 1⟩, 1, 0, 1, some 0, some 1, some 0, some 0, some 0,
            "Jan-69", ⟨2069, 1, 25⟩⟩ := by
    simp only [chargeOne, hpJ, hg1, Option.map_some']
    norm_num
  have hch : computeCharges default_solar_guarantee 0 0 0
      [⟨⟨2068, 12, 1⟩, 1, 0, 1⟩, ⟨⟨2069, 1, 1⟩, 1, 0, 1⟩] =
      some [⟨⟨2068, 12, 1⟩, 1, 0, 1, some 0, some 1, some 0, some 0, some 0,
             "Dec-68", ⟨2068, 12, 25⟩⟩,
            ⟨⟨2069, 1, 1⟩, 1, 0, 1, some 0, some 1, some 0, some 0, some 0,
             "Jan-69", ⟨2069, 1, 25⟩⟩] := by
    simp only [computeCharges, hc1, hc2]
  have hlab : (([⟨⟨2068, 12, 1⟩, 1, 0, 1, some 0, some 1, some 0, some 0,
      some 0, "Dec-68", ⟨2068, 12, 25⟩⟩,
      ⟨⟨2069, 1, 1⟩, 1, 0, 1, some 0, some 1, some 0, some 0, some 0,
       "Jan-69", ⟨2069, 1, 25⟩⟩] : List ChargedRow).map
      (fun c => c.period)).dedup = ["Dec-68", "Jan-69"] := by decide
  have hkD : sortKey "Dec-68" = 20681201 := by decide
  have hkJ : sortKey "Jan-69" = 19690101 := by decide
  have hagg : (aggregate [⟨⟨2068, 12, 1⟩, 1, 0, 1, some 0, some 1, some 0,
      some 0, some 0, "Dec-68", ⟨2068, 12, 25⟩⟩,
      ⟨⟨2069, 1, 1⟩, 1, 0, 1, some 0, some 1, some 0, some 0, some 0,
       "Jan-69", ⟨2069, 1, 25⟩⟩]).map (fun s => s.period) =
      ["Jan-69", "Dec-68", "Grand Total"] := by
    norm_num [aggregate, sortSummaries, pivotTable, hlab, mkRow, sumOpt,
      effectiveRate, grandTotalRow, List.filter, charListLe, hkD, hkJ]
  exact ⟨hch, hagg, by decide⟩

end Solar
